import Mathlib

set_option autoImplicit false

/-!
Shallow embedding of the build-orchestration scripts
`scripts/electron-builder-wrapper.js` and `scripts/afterSign.js`.

Process-global inputs of the scripts are passed explicitly: the host
platform (process.platform), the environment snapshot (process.env), the
argv tokens after the interpreter and script name, and the filesystem
probe for the provisioning-profile file. Fallible code returns `Except`.
-/

/-- An environment snapshot: an ordered mapping from variable names to
values, modelling the JavaScript process.env object. -/
abbrev Env : Type := List (String × String)

/-- JS truthiness of an environment-variable read (env.X): an absent
variable is undefined (falsy) and an empty-string value is falsy. -/
def envTruthy (env : Env) (key : String) : Bool :=
  match env.lookup key with
  | some v => v != ""
  | none => false

/-- JS truthiness of a possibly-undefined boolean, such as
wrapperConfig.doSign when the mode was unrecognised. -/
def otruthy : Option Bool → Bool
  | some b => b
  | none => false

/-- The four code-signing configuration keys destructured away by
`stripCSC` (electron-builder-wrapper.js:17-26). -/
def cscKeys : List String :=
  ["CSC_LINK", "CSC_KEY_PASSWORD", "WIN_CSC_LINK", "WIN_CSC_KEY_PASSWORD"]

/-- `stripCSC` (electron-builder-wrapper.js:17): returns a new environment
from which the four code-signing keys are absent; every other entry is
kept unchanged. -/
def stripCSC (environment : Env) : Env :=
  environment.filter (fun kv => !(cscKeys.contains kv.1))

/-- Character-list test modelling targetName.indexOf(p) === 0. -/
def listStartsWith : List Char → List Char → Bool
  | [], _ => true
  | _ :: _, [] => false
  | p :: ps, c :: cs => p == c && listStartsWith ps cs

/-- `isTargetOfType` (electron-builder-wrapper.js:46): true when
`targetName` equals `targetType` or starts with `targetType` followed by
a colon. -/
def isTargetOfType (targetName targetType : String) : Bool :=
  targetName == targetType || listStartsWith (targetType ++ ":").data targetName.data

/-- Characters matched by the white-space class of the mode regex in
`parseArgs`; the scripts receive ASCII argv tokens, so the ASCII
white-space characters suffice. -/
def jsWhitespaceChar (c : Char) : Bool :=
  c == ' ' || c == '\t' || c == '\n' || c == '\r' || c == '\x0b' || c == '\x0c'

/-- If `s` begins with the literal characters of the mode flag, return the
remainder. -/
def dropModeLit : List Char → Option (List Char)
  | '-' :: '-' :: 'm' :: 'o' :: 'd' :: 'e' :: rest => some rest
  | _ => none

/-- Match of the captured group of the mode regex at the head of `s`: a
greedy nonempty run of white space, or a single equals sign. Returns the
captured separator together with the rest of the string. -/
def matchModeSep : List Char → Option (List Char × List Char)
  | [] => none
  | c :: rest =>
    if jsWhitespaceChar c then
      some ((c :: rest).takeWhile jsWhitespaceChar, (c :: rest).dropWhile jsWhitespaceChar)
    else if c == '=' then
      some (['='], rest)
    else none

/-- Match of the whole mode regex at the head of `s`. -/
def matchModeAt (s : List Char) : Option (List Char × List Char) :=
  match dropModeLit s with
  | some rest => matchModeSep rest
  | none => none

/-- JS String.prototype.split specialised to the mode regex of
`parseArgs` (electron-builder-wrapper.js:166): walk the string, split at
every match, and record the captured separator between the pieces. The
fuel argument only bounds the recursion; every match consumes at least
one character, so length-plus-one fuel is always enough. -/
def splitModeAux : Nat → List Char → List Char → List (List Char)
  | 0, s, acc => [acc.reverse ++ s]
  | Nat.succ fuel, s, acc =>
    match s with
    | [] => [acc.reverse]
    | c :: rest =>
      match matchModeAt (c :: rest) with
      | some (sep, after) => acc.reverse :: sep :: splitModeAux fuel after []
      | none => splitModeAux fuel rest (c :: acc)

/-- The split of one argv token against the mode regex. -/
def splitMode (arg : String) : List String :=
  (splitModeAux (arg.data.length + 1) arg.data []).map (fun l => String.mk l)

/-- The mode value carried by one token: the split must have length
exactly three and the value is its third element
(electron-builder-wrapper.js:167-168). -/
def modeValueOf (arg : String) : Option String :=
  match splitMode arg with
  | [_, _, m] => some m
  | _ => none

/-- The argument loop of `parseArgs` (electron-builder-wrapper.js:165):
a token carrying a mode value updates the mode, every other token is
appended to builderArgs in order. -/
def parseLoop : List String → List String × String → List String × String
  | [], st => st
  | arg :: rest, (bArgs, mode) =>
    match modeValueOf arg with
    | some m => parseLoop rest (bArgs, m)
    | none => parseLoop rest (bArgs ++ [arg], mode)

/-- The mode switch of `parseArgs` (electron-builder-wrapper.js:177-189):
an unrecognised mode leaves both flags undefined, modelled as `none`. -/
def modeFlags (mode : String) : Option Bool × Option Bool :=
  if mode == "dev" then (some true, some false)
  else if mode == "dir" then (some false, some false)
  else if mode == "dist" then (some true, some true)
  else (none, none)

/-- Overall configuration object built by `parseArgs`. -/
structure WrapperConfig where
  builderArgs : List String
  mode : String
  doPackage : Option Bool
  doSign : Option Bool
deriving DecidableEq, Repr

/-- `parseArgs` (electron-builder-wrapper.js:160), as a function of the
argv tokens after the interpreter and script names. -/
def parseArgsList (scriptArgs : List String) : WrapperConfig :=
  { builderArgs := (parseLoop scriptArgs ([], "dev")).1
    mode := (parseLoop scriptArgs ([], "dev")).2
    doPackage := (modeFlags (parseLoop scriptArgs ([], "dev")).2).1
    doSign := (modeFlags (parseLoop scriptArgs ([], "dev")).2).2 }

/-- One call to electron-builder: a platform plus a space-joined target
name such as "dmg:x64 dmg:arm64". -/
structure BuildTarget where
  platform : String
  name : String
deriving DecidableEq, Repr

/-- `addPlatformTarget` (electron-builder-wrapper.js:112): appends one
entry whose name joins the target:architecture tokens with single
spaces. JS push mutates the array; the model returns the extended list. -/
def addPlatformTarget (targets : List BuildTarget) (newPlatform newTarget : String)
    (newArchitectures : List String) : List BuildTarget :=
  targets ++ [{ platform := newPlatform
                name := String.intercalate " "
                  (newArchitectures.map (fun arch => newTarget ++ ":" ++ arch)) }]

/-- The errors the wrapper script can throw before spawning a child. -/
inductive WrapperError where
  | unsupportedPlatform (platform : String)
  | missingSigningCredentials
deriving DecidableEq, Repr

/-- `calculateTargets` (electron-builder-wrapper.js:126). The host
platform (process.platform) and the filesystem probe for
mas-dev.provisionprofile (fs.existsSync) are explicit parameters. -/
def calculateTargets (hostPlatform : String) (masDevProfileExists : Bool)
    (wrapperConfig : WrapperConfig) : Except WrapperError (List BuildTarget) :=
  if hostPlatform == "win32" then
    Except.ok (addPlatformTarget
      (addPlatformTarget [] "win32" "appx" ["x64", "ia32", "arm64"])
      "win32" "nsis" ["ia32"])
  else if hostPlatform == "darwin" then
    let t0 := if masDevProfileExists then
        addPlatformTarget [] "darwin" "mas-dev" ["x64", "arm64"]
      else []
    let t1 := if otruthy wrapperConfig.doSign then
        addPlatformTarget t0 "darwin" "mas" ["x64", "arm64"]
      else t0
    Except.ok (addPlatformTarget t1 "darwin" "dmg" ["x64", "arm64"])
  else
    Except.error (WrapperError.unsupportedPlatform hostPlatform)

/-- `getPlatformFlag` (electron-builder-wrapper.js:31). -/
def getPlatformFlag (hostPlatform : String) : Except WrapperError String :=
  if hostPlatform == "win32" then Except.ok "--windows"
  else if hostPlatform == "darwin" then Except.ok "--macos"
  else if hostPlatform == "linux" then Except.ok "--linux"
  else Except.error (WrapperError.unsupportedPlatform hostPlatform)

/-- The child-process invocation `runBuilder` would perform; producing
this record models reaching the spawnSync call. -/
structure SpawnRequest where
  command : String
  args : List String
  env : Env
deriving DecidableEq, Repr

/-- `runBuilder` (electron-builder-wrapper.js:58) up to the spawnSync
call: an `Except.error` result models a throw before any child process
is spawned. -/
def runBuilder (hostPlatform : String) (env : Env) (wrapperConfig : WrapperConfig)
    (target : BuildTarget) : Except WrapperError SpawnRequest :=
  let shouldStripCSC := isTargetOfType target.name "appx" || !(otruthy wrapperConfig.doSign)
  let childEnvironment := if shouldStripCSC then stripCSC env else env
  if otruthy wrapperConfig.doSign && isTargetOfType target.name "nsis" &&
      !(envTruthy childEnvironment "CSC_LINK" || envTruthy childEnvironment "WIN_CSC_LINK") then
    Except.error WrapperError.missingSigningCredentials
  else
    match getPlatformFlag hostPlatform with
    | Except.error e => Except.error e
    | Except.ok platformFlag =>
      let args0 := [platformFlag, target.name]
      let args1 := if target.platform == "darwin" then
          args0 ++
            ["--c.mac.type=" ++ (if wrapperConfig.mode == "dist" then "distribution" else "development")] ++
            (if isTargetOfType target.name "mas-dev" then
              ["--c.mac.provisioningProfile=mas-dev.provisionprofile"] else []) ++
            (if otruthy wrapperConfig.doSign then ["--c.afterSign=scripts/afterSign.js"]
              else ["--c.mac.identity=null"])
        else args0
      let args2 := if !(otruthy wrapperConfig.doPackage) then
          args1 ++ ["--dir", "--c.compression=store"]
        else args1
      Except.ok { command := "electron-builder"
                  args := args2 ++ wrapperConfig.builderArgs
                  env := childEnvironment }

/-- The notarization context fields the scripts read; productFilename
models context.packager.appInfo.productFilename. -/
structure NotarizationContext where
  appOutDir : String
  productFilename : String
  targets : List BuildTarget
deriving DecidableEq, Repr

/-- Observable outcome of the post-sign hook: nothing happens, a warning
is printed, or a notarize request with these fields is submitted. -/
inductive NotarizeOutcome where
  | noAction
  | warnedMissingUsername
  | submitted (appBundleId : String) (appPath : String) (appleId : String)
      (appleIdPassword : String)
deriving DecidableEq, Repr

/-- Failure of the post-sign hook itself: reading the name of the first
target of an empty list throws a TypeError in JS. -/
inductive AfterSignError where
  | emptyTargets
deriving DecidableEq, Repr

/-- `notarizeMacBuild` (afterSign.js:3). -/
def notarizeMacBuild (env : Env) (context : NotarizationContext) : NotarizeOutcome :=
  if !(envTruthy env "AC_USERNAME") then
    NotarizeOutcome.warnedMissingUsername
  else
    NotarizeOutcome.submitted "edu.mit.scratch.scratch-desktop"
      (context.appOutDir ++ "/" ++ context.productFilename ++ ".app")
      ((env.lookup "AC_USERNAME").getD "")
      (if envTruthy env "AC_PASSWORD" then (env.lookup "AC_PASSWORD").getD ""
        else "@keychain:" ++ ("Application Loader: " ++ (env.lookup "AC_USERNAME").getD ""))

/-- `afterSign` (afterSign.js:36): inspects only the name of the first
target in the context; the switch falls through from the mas-dev case to
the mas case. -/
def afterSign (env : Env) (context : NotarizationContext) :
    Except AfterSignError NotarizeOutcome :=
  match context.targets with
  | [] => Except.error AfterSignError.emptyTargets
  | first :: _ =>
    if first.name = "mas-dev" then Except.ok NotarizeOutcome.noAction
    else if first.name = "mas" then Except.ok NotarizeOutcome.noAction
    else if first.name = "dmg" then Except.ok (notarizeMacBuild env context)
    else Except.ok NotarizeOutcome.noAction

/-- Split a string at single spaces; used only to state claims about the
space-joined token format of target names. -/
def spaceTokensAux : List Char → List Char → List (List Char)
  | [], acc => [acc.reverse]
  | c :: rest, acc =>
    if c == ' ' then acc.reverse :: spaceTokensAux rest []
    else spaceTokensAux rest (c :: acc)

/-- Space-delimited tokens of a target-name string. -/
def spaceTokens (s : String) : List String :=
  (spaceTokensAux s.data []).map (fun l => String.mk l)

/-! ## Helper lemmas -/

theorem lookup_cons_beq (a b k : String) (rest : Env) (h : (k == a) = true) :
    List.lookup k ((a, b) :: rest) = some b := by
  simp [List.lookup, h]

theorem lookup_cons_bne (a b k : String) (rest : Env) (h : (k == a) = false) :
    List.lookup k ((a, b) :: rest) = List.lookup k rest := by
  simp [List.lookup, h]

theorem stripCSC_cons_mem (a b : String) (rest : Env) (hc : a ∈ cscKeys) :
    stripCSC ((a, b) :: rest) = stripCSC rest := by
  simp [stripCSC, List.filter_cons, hc]

theorem stripCSC_cons_not_mem (a b : String) (rest : Env) (hc : a ∉ cscKeys) :
    stripCSC ((a, b) :: rest) = (a, b) :: stripCSC rest := by
  simp [stripCSC, List.filter_cons, hc]

theorem stripCSC_lookup_csc (env : Env) (k : String)
    (hk : k ∈ cscKeys) : (stripCSC env).lookup k = none := by
  induction env with
  | nil => rfl
  | cons kv rest ih =>
    obtain ⟨a, b⟩ := kv
    by_cases hc : a ∈ cscKeys
    · rw [stripCSC_cons_mem a b rest hc]
      exact ih
    · have hne : (k == a) = false := by
        rw [beq_eq_false_iff_ne]
        intro he
        exact hc (he ▸ hk)
      rw [stripCSC_cons_not_mem a b rest hc, lookup_cons_bne a b k (stripCSC rest) hne]
      exact ih

theorem stripCSC_lookup_other (env : Env) (k : String)
    (hk : k ∉ cscKeys) :
    (stripCSC env).lookup k = env.lookup k := by
  induction env with
  | nil => rfl
  | cons kv rest ih =>
    obtain ⟨a, b⟩ := kv
    by_cases hc : a ∈ cscKeys
    · have hne : (k == a) = false := by
        rw [beq_eq_false_iff_ne]
        intro he
        exact hk (he ▸ hc)
      rw [stripCSC_cons_mem a b rest hc, lookup_cons_bne a b k rest hne]
      exact ih
    · cases he : k == a with
      | true =>
        rw [stripCSC_cons_not_mem a b rest hc, lookup_cons_beq a b k (stripCSC rest) he,
          lookup_cons_beq a b k rest he]
      | false =>
        rw [stripCSC_cons_not_mem a b rest hc, lookup_cons_bne a b k (stripCSC rest) he,
          lookup_cons_bne a b k rest he]
        exact ih

/-! ## Claim theorems -/

/-- Claim C5: stripCSC removes exactly the four code-signing keys:
looking up any of the four in the result yields nothing, and looking up
any other key yields its original value. The embedding is a pure total
function, so the input mapping is unchanged and no failure is possible
whether or not the keys are present. -/
theorem stripCSC_removes_exactly_csc_keys (env : Env) (k : String) :
    (k ∈ cscKeys → (stripCSC env).lookup k = none) ∧
    (k ∉ cscKeys → (stripCSC env).lookup k = env.lookup k) :=
  ⟨stripCSC_lookup_csc env k, stripCSC_lookup_other env k⟩

/-- Witness for C5 at a concrete environment holding one signing key and
one unrelated key. -/
theorem stripCSC_removes_exactly_csc_keys_witness :
    (stripCSC [("CSC_LINK", "secret"), ("PATH", "p")]).lookup "CSC_LINK" = none ∧
    (stripCSC [("CSC_LINK", "secret"), ("PATH", "p")]).lookup "PATH" =
      ([("CSC_LINK", "secret"), ("PATH", "p")] : Env).lookup "PATH" :=
  ⟨(stripCSC_removes_exactly_csc_keys [("CSC_LINK", "secret"), ("PATH", "p")] "CSC_LINK").1
      (by decide),
    (stripCSC_removes_exactly_csc_keys [("CSC_LINK", "secret"), ("PATH", "p")] "PATH").2
      (by decide)⟩

/-- Claim C10: stripCSC is idempotent. -/
theorem stripCSC_idempotent (env : Env) : stripCSC (stripCSC env) = stripCSC env := by
  induction env with
  | nil => rfl
  | cons kv rest ih =>
    obtain ⟨a, b⟩ := kv
    by_cases hc : a ∈ cscKeys
    · rw [stripCSC_cons_mem a b rest hc]
      exact ih
    · rw [stripCSC_cons_not_mem a b rest hc, stripCSC_cons_not_mem a b (stripCSC rest) hc, ih]

/-- Claim C9: an empty target list makes the post-sign hook fail
(reading the first target's name throws) rather than return normally. -/
theorem afterSign_empty_targets (env : Env) (context : NotarizationContext)
    (ht : context.targets = []) :
    afterSign env context = Except.error AfterSignError.emptyTargets := by
  simp [afterSign, ht]

/-- Witness for C9 at a concrete context with no targets. -/
theorem afterSign_empty_targets_witness :
    afterSign [] { appOutDir := "out", productFilename := "Product", targets := [] } =
      Except.error AfterSignError.emptyTargets :=
  afterSign_empty_targets [] { appOutDir := "out", productFilename := "Product", targets := [] }
    rfl

theorem calculateTargets_win32_eq (ex : Bool) (cfg : WrapperConfig) :
    calculateTargets "win32" ex cfg =
      Except.ok [{ platform := "win32", name := "appx:x64 appx:ia32 appx:arm64" },
        { platform := "win32", name := "nsis:ia32" }] := rfl

theorem calculateTargets_darwin_eq (ex : Bool) (cfg : WrapperConfig) :
    calculateTargets "darwin" ex cfg =
      Except.ok
        ((if ex then [{ platform := "darwin", name := "mas-dev:x64 mas-dev:arm64" }] else []) ++
          (if otruthy cfg.doSign then [{ platform := "darwin", name := "mas:x64 mas:arm64" }]
            else []) ++
          [{ platform := "darwin", name := "dmg:x64 dmg:arm64" }]) := by
  cases ex <;> cases hb : otruthy cfg.doSign <;>
    simp [calculateTargets, hb, addPlatformTarget] <;> decide

/-- Claim C4: on the Windows host the plan is exactly two passes: first
appx whose name holds exactly the three tokens appx:x64, appx:ia32,
appx:arm64 in that order, then nsis whose name holds exactly the token
nsis:ia32. -/
theorem calculateTargets_win32_plan (ex : Bool) (cfg : WrapperConfig) :
    calculateTargets "win32" ex cfg =
      Except.ok [{ platform := "win32", name := "appx:x64 appx:ia32 appx:arm64" },
        { platform := "win32", name := "nsis:ia32" }] ∧
    spaceTokens "appx:x64 appx:ia32 appx:arm64" = ["appx:x64", "appx:ia32", "appx:arm64"] ∧
    spaceTokens "nsis:ia32" = ["nsis:ia32"] :=
  ⟨calculateTargets_win32_eq ex cfg, by decide, by decide⟩

/-- Claim C3: on the macOS host the plan emits a mas-dev pass (x64 and
arm64) iff the provisioning profile exists on disk, a mas pass iff
doSign is true, and always a dmg pass, in the order mas-dev, mas, dmg. -/
theorem calculateTargets_darwin_plan (ex s : Bool) (cfg : WrapperConfig)
    (hs : cfg.doSign = some s) :
    calculateTargets "darwin" ex cfg =
      Except.ok
        ((if ex then [{ platform := "darwin", name := "mas-dev:x64 mas-dev:arm64" }] else []) ++
          (if s then [{ platform := "darwin", name := "mas:x64 mas:arm64" }] else []) ++
          [{ platform := "darwin", name := "dmg:x64 dmg:arm64" }]) ∧
    (∀ l, calculateTargets "darwin" ex cfg = Except.ok l →
      (({ platform := "darwin", name := "mas-dev:x64 mas-dev:arm64" } : BuildTarget) ∈ l ↔
        ex = true) ∧
      (({ platform := "darwin", name := "mas:x64 mas:arm64" } : BuildTarget) ∈ l ↔ s = true) ∧
      ({ platform := "darwin", name := "dmg:x64 dmg:arm64" } : BuildTarget) ∈ l) := by
  have h1 := calculateTargets_darwin_eq ex cfg
  rw [hs] at h1
  have ho : otruthy (some s) = s := rfl
  rw [ho] at h1
  refine ⟨h1, ?_⟩
  intro l hl
  rw [h1] at hl
  injection hl with h2
  subst h2
  cases ex <;> cases s <;> refine ⟨?_, ?_, ?_⟩ <;> decide

/-- Witness for C3 with the profile present and signing enabled. -/
theorem calculateTargets_darwin_plan_witness :
    calculateTargets "darwin" true
        { builderArgs := [], mode := "dist", doPackage := some true, doSign := some true } =
      Except.ok [{ platform := "darwin", name := "mas-dev:x64 mas-dev:arm64" },
        { platform := "darwin", name := "mas:x64 mas:arm64" },
        { platform := "darwin", name := "dmg:x64 dmg:arm64" }] := by
  have h := (calculateTargets_darwin_plan true true
    { builderArgs := [], mode := "dist", doPackage := some true, doSign := some true } rfl).1
  simpa using h

/-- Claim C8: both supported host platforms yield a non-empty plan; any
other host platform yields the unsupported-platform error instead of a
plan. -/
theorem calculateTargets_supported_platforms (ex : Bool) (cfg : WrapperConfig) (p : String) :
    ((p = "win32" ∨ p = "darwin") →
      ∃ l, calculateTargets p ex cfg = Except.ok l ∧ l ≠ []) ∧
    (p ≠ "win32" → p ≠ "darwin" →
      calculateTargets p ex cfg = Except.error (WrapperError.unsupportedPlatform p)) := by
  constructor
  · rintro (rfl | rfl)
    · exact ⟨_, calculateTargets_win32_eq ex cfg, by decide⟩
    · refine ⟨_, calculateTargets_darwin_eq ex cfg, ?_⟩
      cases ex <;> cases h : otruthy cfg.doSign <;> simp
  · intro h1 h2
    have hb1 : (p == "win32") = false := beq_eq_false_iff_ne.mpr h1
    have hb2 : (p == "darwin") = false := beq_eq_false_iff_ne.mpr h2
    simp [calculateTargets, hb1, hb2]

/-- Witness for C8: win32 yields a non-empty plan, linux fails. -/
theorem calculateTargets_supported_platforms_witness :
    (∃ l, calculateTargets "win32" true
        { builderArgs := [], mode := "dev", doPackage := some true, doSign := some false } =
        Except.ok l ∧ l ≠ []) ∧
    calculateTargets "linux" true
        { builderArgs := [], mode := "dev", doPackage := some true, doSign := some false } =
      Except.error (WrapperError.unsupportedPlatform "linux") :=
  ⟨(calculateTargets_supported_platforms true
      { builderArgs := [], mode := "dev", doPackage := some true, doSign := some false }
      "win32").1 (Or.inl rfl),
    (calculateTargets_supported_platforms true
      { builderArgs := [], mode := "dev", doPackage := some true, doSign := some false }
      "linux").2 (by decide) (by decide)⟩

theorem getLastD_cons_eq (m d : String) (l : List String) :
    ((m :: l).getLast?).getD d = (l.getLast?).getD m := by
  cases l with
  | nil => rfl
  | cons x xs =>
    rw [List.getLast?_cons_cons]
    cases h : (x :: xs).getLast? with
    | some y => rfl
    | none =>
      rw [List.getLast?_eq_none_iff] at h
      cases h

theorem parseLoop_eq (args : List String) : ∀ (bArgs : List String) (mode : String),
    parseLoop args (bArgs, mode) =
      (bArgs ++ args.filter (fun a => (modeValueOf a).isNone),
        ((args.filterMap modeValueOf).getLast?).getD mode) := by
  induction args with
  | nil =>
    intro bArgs mode
    simp [parseLoop]
  | cons arg rest ih =>
    intro bArgs mode
    cases hm : modeValueOf arg with
    | some m =>
      simp only [parseLoop, hm]
      rw [ih]
      rw [List.filter_cons, List.filterMap_cons]
      simp [hm, getLastD_cons_eq]
    | none =>
      simp only [parseLoop, hm]
      rw [ih]
      rw [List.filter_cons, List.filterMap_cons]
      simp [hm]

/-- Claim C2 counterexample: giving the mode as two separate tokens does
not set the mode; the mode stays the default dev and both tokens are
forwarded to builderArgs verbatim. -/
theorem parseArgs_two_token_mode_counterexample :
    (parseArgsList ["--mode", "dist"]).mode = "dev" ∧
    (parseArgsList ["--mode", "dist"]).builderArgs = ["--mode", "dist"] ∧
    (parseArgsList ["--mode", "dist"]).mode ≠ "dist" :=
  ⟨by decide, by decide, by decide⟩

/-- Claim C2 amended: a token sets the mode exactly when the mode regex
splits it into three pieces, which happens for the one-token form with
an equals sign (or for white space embedded inside one token) but not
for the bare flag token of the two-token form; the last such token wins,
the default mode is dev, and every token that does not set the mode is
placed into builderArgs verbatim, in its original order. -/
theorem parseArgs_characterization (args : List String) :
    (parseArgsList args).builderArgs =
      args.filter (fun a => (modeValueOf a).isNone) ∧
    (parseArgsList args).mode =
      ((args.filterMap modeValueOf).getLast?).getD "dev" ∧
    modeValueOf "--mode=dist" = some "dist" ∧
    modeValueOf "--mode" = none ∧
    modeValueOf "dist" = none := by
  refine ⟨?_, ?_, by decide, by decide, by decide⟩
  · show (parseLoop args ([], "dev")).1 = _
    rw [parseLoop_eq args [] "dev"]
    simp
  · show (parseLoop args ([], "dev")).2 = _
    rw [parseLoop_eq args [] "dev"]

/-- Claim C7: with a recognised mode, doPackage and doSign are fully
determined by the mode: dev packages without signing, dir does neither,
dist does both; no other combination arises from these three modes. -/
theorem parseArgs_mode_determines_flags (args : List String) :
    ((parseArgsList args).mode = "dev" →
      (parseArgsList args).doPackage = some true ∧
        (parseArgsList args).doSign = some false) ∧
    ((parseArgsList args).mode = "dir" →
      (parseArgsList args).doPackage = some false ∧
        (parseArgsList args).doSign = some false) ∧
    ((parseArgsList args).mode = "dist" →
      (parseArgsList args).doPackage = some true ∧
        (parseArgsList args).doSign = some true) := by
  have hp : (parseArgsList args).doPackage =
      (modeFlags (parseArgsList args).mode).1 := rfl
  have hs : (parseArgsList args).doSign =
      (modeFlags (parseArgsList args).mode).2 := rfl
  refine ⟨fun h => ?_, fun h => ?_, fun h => ?_⟩ <;>
    rw [hp, hs, h] <;> exact ⟨by decide, by decide⟩

/-- Witness for C7 at concrete token lists reaching each recognised
mode. -/
theorem parseArgs_mode_determines_flags_witness :
    ((parseArgsList ["foo"]).doPackage = some true ∧
      (parseArgsList ["foo"]).doSign = some false) ∧
    ((parseArgsList ["--mode=dir"]).doPackage = some false ∧
      (parseArgsList ["--mode=dir"]).doSign = some false) ∧
    ((parseArgsList ["--mode=dist"]).doPackage = some true ∧
      (parseArgsList ["--mode=dist"]).doSign = some true) :=
  ⟨(parseArgs_mode_determines_flags ["foo"]).1 (by decide),
    (parseArgs_mode_determines_flags ["--mode=dir"]).2.1 (by decide),
    (parseArgs_mode_determines_flags ["--mode=dist"]).2.2 (by decide)⟩

theorem envTruthy_of_lookup_none (env : Env) (k : String)
    (h : env.lookup k = none) : envTruthy env k = false := by
  unfold envTruthy
  rw [h]

/-- Claim C1: when doSign is true and the pass target is of type nsis
(exactly nsis or a name with prefix nsis followed by a colon) and
neither CSC_LINK nor WIN_CSC_LINK is present in the environment, the
builder run fails with the missing-credentials error; no spawn request
is produced. -/
theorem runBuilder_nsis_missing_credentials (hostPlatform : String) (env : Env)
    (cfg : WrapperConfig) (target : BuildTarget)
    (hsign : cfg.doSign = some true)
    (hnsis : isTargetOfType target.name "nsis" = true)
    (hc : env.lookup "CSC_LINK" = none)
    (hw : env.lookup "WIN_CSC_LINK" = none) :
    runBuilder hostPlatform env cfg target =
      Except.error WrapperError.missingSigningCredentials := by
  have hcE : envTruthy env "CSC_LINK" = false := envTruthy_of_lookup_none env _ hc
  have hwE : envTruthy env "WIN_CSC_LINK" = false := envTruthy_of_lookup_none env _ hw
  have hcS : envTruthy (stripCSC env) "CSC_LINK" = false :=
    envTruthy_of_lookup_none _ _ (stripCSC_lookup_csc env _ (by decide))
  have hwS : envTruthy (stripCSC env) "WIN_CSC_LINK" = false :=
    envTruthy_of_lookup_none _ _ (stripCSC_lookup_csc env _ (by decide))
  simp only [runBuilder, hsign, otruthy]
  cases hstrip : isTargetOfType target.name "appx" <;>
    simp [hnsis, hcE, hwE, hcS, hwS]

/-- Witness for C1 at a concrete signed nsis pass with no signing keys
in the environment. -/
theorem runBuilder_nsis_missing_credentials_witness :
    runBuilder "win32" [("PATH", "C:")]
        { builderArgs := [], mode := "dist", doPackage := some true, doSign := some true }
        { platform := "win32", name := "nsis:ia32" } =
      Except.error WrapperError.missingSigningCredentials :=
  runBuilder_nsis_missing_credentials "win32" [("PATH", "C:")]
    { builderArgs := [], mode := "dist", doPackage := some true, doSign := some true }
    { platform := "win32", name := "nsis:ia32" } rfl (by decide) rfl rfl

/-- Claim C6: post-sign behaviour by the first target name: mas and
mas-dev perform no remote call; dmg with AC_USERNAME unset warns and
returns without error and without a remote call; dmg with AC_USERNAME
set (a nonempty value, the truthiness test the script uses) and
AC_PASSWORD unset submits with the keychain reference derived from the
Apple ID, of the form Application Loader: username; any other first
target name results in no action. -/
theorem afterSign_behaviour (env : Env) (context : NotarizationContext)
    (first : BuildTarget) (rest : List BuildTarget)
    (ht : context.targets = first :: rest) :
    ((first.name = "mas" ∨ first.name = "mas-dev") →
      afterSign env context = Except.ok NotarizeOutcome.noAction) ∧
    (first.name = "dmg" → env.lookup "AC_USERNAME" = none →
      afterSign env context = Except.ok NotarizeOutcome.warnedMissingUsername) ∧
    (∀ u : String, first.name = "dmg" → env.lookup "AC_USERNAME" = some u → u ≠ "" →
      env.lookup "AC_PASSWORD" = none →
      afterSign env context = Except.ok (NotarizeOutcome.submitted
        "edu.mit.scratch.scratch-desktop"
        (context.appOutDir ++ "/" ++ context.productFilename ++ ".app") u
        ("@keychain:" ++ ("Application Loader: " ++ u)))) ∧
    (first.name ≠ "mas" → first.name ≠ "mas-dev" → first.name ≠ "dmg" →
      afterSign env context = Except.ok NotarizeOutcome.noAction) := by
  refine ⟨?_, ?_, ?_, ?_⟩
  · rintro (h | h) <;> simp [afterSign, ht, h]
  · intro h hu
    have hT : envTruthy env "AC_USERNAME" = false := envTruthy_of_lookup_none env _ hu
    simp [afterSign, ht, h, notarizeMacBuild, hT]
  · intro u h hu hne hp
    have hT : envTruthy env "AC_USERNAME" = true := by
      unfold envTruthy
      rw [hu]
      exact bne_iff_ne.mpr hne
    have hP : envTruthy env "AC_PASSWORD" = false := envTruthy_of_lookup_none env _ hp
    simp [afterSign, ht, h, notarizeMacBuild, hT, hP, hu]
  · intro h1 h2 h3
    simp [afterSign, ht, h1, h2, h3]

/-- Witness for C6: a dmg context with AC_USERNAME set and AC_PASSWORD
unset submits with the keychain reference. -/
theorem afterSign_behaviour_witness :
    afterSign [("AC_USERNAME", "dev@example.com")]
        { appOutDir := "out", productFilename := "Scratch",
          targets := [{ platform := "darwin", name := "dmg" }] } =
      Except.ok (NotarizeOutcome.submitted "edu.mit.scratch.scratch-desktop"
        ("out" ++ "/" ++ "Scratch" ++ ".app") "dev@example.com"
        ("@keychain:" ++ ("Application Loader: " ++ "dev@example.com"))) :=
  (afterSign_behaviour [("AC_USERNAME", "dev@example.com")]
      { appOutDir := "out", productFilename := "Scratch",
        targets := [{ platform := "darwin", name := "dmg" }] }
      { platform := "darwin", name := "dmg" } [] rfl).2.2.1
    "dev@example.com" rfl rfl (by decide) rfl
